import Mathlib

/-
Verification of the gopcan PCAN-Basic binding layer.

Shallow embedding of the receive protocol of src/pcan/pcanbasic.go:
Read (lines 211-222), ReadWithTimeout (lines 227-270),
ReadFullBuffer (lines 274-296), StartTrace (lines 422-463) and
UnloadAPI (lines 96-118).

The native driver (the PCANBasic DLL reached through syscall.Proc.Call)
is modelled as an environment trace: a list of responses, one consumed
per native call.  Wall-clock time (time.Now) and the outcome of
syscall.WaitForSingleObject are likewise part of the trace, since they
are inputs the code reads from the outside world.  A run that consumes
the whole trace before the Go function would have returned is reported
as outOfTrace / outOfStub: the modelled trace does not determine the
outcome there, and theorems are conditioned on traces that do.
-/

namespace Gopcan

/-- Driver status code, a flat numeric enumeration (Go type TPCANStatus,
an uint32).  The numeric constants live in a constants file of the
repository that is not under src/. -/
abbrev TPCANStatus := Nat

/-- Modelled from the spec: the single success status of the status code
space (the constants file defining the numeric value is not under src/;
the value used is the vendor value 0x0). -/
def PCAN_ERROR_OK : TPCANStatus := 0

/-- Modelled from the spec: the distinguished queue-empty status, a
non-error outcome of read operations (vendor value 0x20). -/
def PCAN_ERROR_QRCVEMPTY : TPCANStatus := 32

/-- Modelled from the spec: the generic unknown-error status used by the
wrapper for locally detected validation failures (vendor value 0x10000). -/
def PCAN_ERROR_UNKNOWN : TPCANStatus := 65536

/-- A CAN message (Go struct TPCANMsg in src/pcan/types.go lines 4-9).
The fixed [8]byte data array is modelled as a list of bytes. -/
structure TPCANMsg where
  ID : Nat
  MsgType : Nat
  DLC : Nat
  Data : List Nat
deriving DecidableEq, Repr

/-- Timestamp of a received message (Go struct TPCANTimestamp in
src/pcan/types.go lines 13-17). -/
structure TPCANTimestamp where
  Millis : Nat
  MillisOverflow : Nat
  Micros : Nat
deriving DecidableEq, Repr

/-- Result of one native CAN_Read call (pHandleRead.Call followed by
syscallErr): the returned status, the message and timestamp structs the
driver filled, and the translated platform error (none = nil). -/
structure NativeRead where
  status : TPCANStatus
  msg : TPCANMsg
  timestamp : TPCANTimestamp
  err : Option Nat
deriving DecidableEq, Repr

/-- Return value of the Go method Read (src/pcan/pcanbasic.go lines
211-222): status, message pointer, timestamp pointer, error.  The Go
nil pointers are modelled as none. -/
structure ReadRet where
  status : TPCANStatus
  msg : Option TPCANMsg
  timestamp : Option TPCANTimestamp
  err : Option Nat
deriving DecidableEq, Repr

/-- The Go method Read (src/pcan/pcanbasic.go lines 211-222): performs
one native read; when the status is PCAN_ERROR_QRCVEMPTY it returns nil
message and timestamp pointers, otherwise pointers to the structs the
driver filled. -/
def Read (r : NativeRead) : ReadRet :=
  if r.status = PCAN_ERROR_QRCVEMPTY then
    ⟨r.status, none, none, r.err⟩
  else
    ⟨r.status, some r.msg, some r.timestamp, r.err⟩

/-- Outcome value of syscall.WaitForSingleObject as matched by the Go
switch in ReadWithTimeout: WAIT_OBJECT_0, WAIT_FAILED, WAIT_TIMEOUT, or
any other value (the default case). -/
inductive WaitVal where
  | object0
  | failed
  | timedOut
  | other (v : Nat)
deriving DecidableEq, Repr

/-- One call to syscall.WaitForSingleObject: the returned event value
and the returned error (none = nil). -/
structure WaitCall where
  val : WaitVal
  err : Option Nat
deriving DecidableEq, Repr

/-- One loop iteration of the environment: the native read response,
the wait-primitive response (consulted only when hasEvents is set and
the read was queue-empty), and the value of time.Now in milliseconds at
the deadline check (consulted only on the polling fallback path). -/
structure EnvStep where
  read : NativeRead
  wait : WaitCall
  now : Int
deriving DecidableEq, Repr

/-- Result of a ReadWithTimeout run over a modelled trace.  done
carries the four Go return values plus the unconsumed remainder of the
trace (the reads and waits the call never performed). -/
inductive RWTResult where
  | done (ret : TPCANStatus) (msg : Option TPCANMsg)
      (timestamp : Option TPCANTimestamp) (err : Option Nat)
      (remaining : List EnvStep)
  | outOfTrace
deriving DecidableEq, Repr

/-- Value of syscall.INFINITE on windows (0xFFFFFFFF), which the Go
code assigns to a negative timeout before computing the deadline. -/
def INFINITE : Int := 4294967295

/-- The receive loop of ReadWithTimeout (src/pcan/pcanbasic.go lines
243-266), one trace step per iteration.  The Go loop runs while the
message pointer is nil, which by Read holds exactly while the status is
PCAN_ERROR_QRCVEMPTY, and exits returning ret, msg, timeStamp, err as
soon as a read yields a non-nil message.  On a queue-empty read it
either consults the event wait primitive (hasEvents) or checks the
deadline against time.Now and sleeps (polling fallback).  In the switch
the WAIT_OBJECT_0 break leaves only the switch, so the loop re-reads;
the default case returns the nil msg and timestamp of the current
queue-empty read. -/
def readWithTimeoutLoop (hasEvents : Bool) (timeoutU32 : Nat)
    (endTime : Int) : List EnvStep → RWTResult
  | [] => .outOfTrace
  | step :: rest =>
    if (Read step.read).status = PCAN_ERROR_QRCVEMPTY then
      if hasEvents then
        match step.wait.val with
        | .object0 => readWithTimeoutLoop hasEvents timeoutU32 endTime rest
        | .failed => .done (Read step.read).status none none step.wait.err rest
        | .timedOut => .done (Read step.read).status none none step.wait.err rest
        | .other _ => .done (Read step.read).status (Read step.read).msg
            (Read step.read).timestamp step.wait.err rest
      else
        if endTime < step.now then
          .done (Read step.read).status none none (Read step.read).err rest
        else
          readWithTimeoutLoop hasEvents timeoutU32 endTime rest
    else
      .done (Read step.read).status (Read step.read).msg
        (Read step.read).timestamp (Read step.read).err rest

/-- The Go method ReadWithTimeout (src/pcan/pcanbasic.go lines
227-270): a negative timeout is replaced by syscall.INFINITE, the
timeout is truncated to uint32 for the wait primitive, and the deadline
is startTime + timeout in milliseconds.  startTime (time.Now at entry)
and the per-iteration environment are passed explicitly. -/
def ReadWithTimeout (hasEvents : Bool) (timeout startTime : Int)
    (env : List EnvStep) : RWTResult :=
  readWithTimeoutLoop hasEvents
    ((if timeout < 0 then INFINITE else timeout).toNat % 4294967296)
    (startTime + (if timeout < 0 then INFINITE else timeout)) env

/-- Result of a ReadFullBuffer run: the accumulated message and
timestamp lists and the error of the last read, plus the unconsumed
trace remainder.  The Go return type carries no status code. -/
inductive RFBResult where
  | done (msgs : List TPCANMsg) (timestamps : List TPCANTimestamp)
      (err : Option Nat) (remaining : List EnvStep)
  | outOfTrace
deriving DecidableEq, Repr

/-- The read loop of ReadFullBuffer (src/pcan/pcanbasic.go lines
284-295): read until the status is PCAN_ERROR_QRCVEMPTY, otherwise
append the struct behind the returned message pointer (which Read
points at the struct the driver filled) and the timestamp, and stop
when limit is non-zero and the accumulated length has reached it. -/
def readFullBufferLoop (limit : Int) (msgs : List TPCANMsg)
    (timestamps : List TPCANTimestamp) : List EnvStep → RFBResult
  | [] => .outOfTrace
  | step :: rest =>
    if (Read step.read).status = PCAN_ERROR_QRCVEMPTY then
      .done msgs timestamps (Read step.read).err rest
    else
      if limit ≠ 0 ∧ limit ≤ ((msgs ++ [step.read.msg]).length : Int) then
        .done (msgs ++ [step.read.msg]) (timestamps ++ [step.read.timestamp])
          (Read step.read).err rest
      else
        readFullBufferLoop limit (msgs ++ [step.read.msg])
          (timestamps ++ [step.read.timestamp]) rest

/-- The Go method ReadFullBuffer (src/pcan/pcanbasic.go lines
274-296), starting from empty accumulators. -/
def ReadFullBuffer (limit : Int) (env : List EnvStep) : RFBResult :=
  readFullBufferLoop limit [] [] env

/-- Stub response of one native SetValue call (SetParameter wraps
SetValue): the returned status and translated platform error. -/
structure StubResp where
  status : TPCANStatus
  err : Option Nat
deriving DecidableEq, Repr

/-- Identity of the parameter a native call of StartTrace carries
(PCAN_TRACE_CONFIGURE, PCAN_TRACE_SIZE, PCAN_TRACE_LOCATION,
PCAN_TRACE_STATUS).  The numeric parameter ids live in the constants
file outside src/; only the identity matters here, so the flag
arithmetic building the configure value is not modelled. -/
inductive TraceParam where
  | TRACE_CONFIGURE
  | TRACE_SIZE
  | TRACE_LOCATION
  | TRACE_STATUS
deriving DecidableEq, Repr

/-- Error returned by StartTrace: a local validation error (the two
fmt.Errorf sites) or a driver platform error forwarded from a native
call. -/
inductive TraceErr where
  | maxSizeExceeded
  | pathTooLong
  | driverErr (code : Nat)
deriving DecidableEq, Repr

/-- Result of a StartTrace run: the returned status and error together
with the list of native calls that were made, in order. -/
inductive TraceResult where
  | done (status : TPCANStatus) (err : Option TraceErr)
      (calls : List TraceParam)
  | outOfStub
deriving DecidableEq, Repr

/-- Tail of StartTrace from the file path check on (src/pcan/
pcanbasic.go lines 446-462): reject an oversized path locally with
PCAN_ERROR_UNKNOWN, otherwise set PCAN_TRACE_LOCATION and then
PCAN_TRACE_STATUS, propagating the first failing native result.  calls
holds the native calls already made by the earlier part. -/
def startTraceAfterSize (maxLen pathLen : Nat) (calls : List TraceParam)
    (stub : List StubResp) : TraceResult :=
  if pathLen > maxLen then
    .done PCAN_ERROR_UNKNOWN (some .pathTooLong) calls
  else
    match stub with
    | [] => .outOfStub
    | r3 :: s3 =>
      if r3.err ≠ none ∨ r3.status ≠ PCAN_ERROR_OK then
        .done r3.status (r3.err.map .driverErr) (calls ++ [.TRACE_LOCATION])
      else
        match s3 with
        | [] => .outOfStub
        | r4 :: _ =>
          .done r4.status (r4.err.map .driverErr)
            (calls ++ [.TRACE_LOCATION, .TRACE_STATUS])

/-- The Go method StartTrace (src/pcan/pcanbasic.go lines 422-463).
maxLen is the path length limit MAX_LENGHT_STRING_BUFFER and
maxTraceFileSize is MAX_TRACE_FILE_SIZE_ACCEPTED; both constants are
defined outside src/ and are taken as parameters.  Order mirrors the
source: max file size check (local), PCAN_TRACE_CONFIGURE call,
optional PCAN_TRACE_SIZE call, path length check (local), then the
path and status calls. -/
def StartTrace (maxLen maxTraceFileSize pathLen maxFileSize : Nat)
    (stub : List StubResp) : TraceResult :=
  if maxFileSize > maxTraceFileSize then
    .done PCAN_ERROR_UNKNOWN (some .maxSizeExceeded) []
  else
    match stub with
    | [] => .outOfStub
    | r1 :: s1 =>
      if r1.err ≠ none ∨ r1.status ≠ PCAN_ERROR_OK then
        .done r1.status (r1.err.map .driverErr) [.TRACE_CONFIGURE]
      else
        if maxFileSize > 0 then
          match s1 with
          | [] => .outOfStub
          | r2 :: s2 =>
            if r2.err ≠ none ∨ r2.status ≠ PCAN_ERROR_OK then
              .done r2.status (r2.err.map .driverErr)
                [.TRACE_CONFIGURE, .TRACE_SIZE]
            else
              startTraceAfterSize maxLen pathLen
                [.TRACE_CONFIGURE, .TRACE_SIZE] s2
        else
          startTraceAfterSize maxLen pathLen [.TRACE_CONFIGURE] s1

/-- The process-wide resolved entry points (the package-level var block
of src/pcan/pcanbasic.go lines 31-50).  Each field models one
pointer-to-syscall.Proc variable; none models a nil pointer.  Some
field names abbreviate the source spelling. -/
structure APIState where
  pHandleInit : Option Unit
  pHandleInitFD : Option Unit
  pHandleUninit : Option Unit
  pHandleReset : Option Unit
  pHandleGetStatus : Option Unit
  pHandleRead : Option Unit
  pHandleReadFD : Option Unit
  pHandleWrite : Option Unit
  pHandleWriteFD : Option Unit
  pHandleFilterMessages : Option Unit
  pHandleGetValue : Option Unit
  pHandleSetValue : Option Unit
  pHandleGetErrorText : Option Unit
  pHandleLookUpChannel : Option Unit
  apiLoaded : Bool
deriving DecidableEq, Repr

/-- The Go function UnloadAPI (src/pcan/pcanbasic.go lines 96-118):
sets every resolved entry point to nil and clears apiLoaded,
whatever the previous state was. -/
def UnloadAPI (_s : APIState) : APIState :=
  ⟨none, none, none, none, none, none, none, none, none, none, none,
    none, none, none, false⟩

/-- Outcome of invoking a Go method that calls through a stored
pointer-to-syscall.Proc: calling Call on a nil pointer is a runtime
nil-pointer dereference (a panic), otherwise the call returns a value. -/
inductive GoCall (R : Type) where
  | nilProcPanic : GoCall R
  | returned : R → GoCall R
deriving DecidableEq

/-- The method Read as invoked through the process-wide state: it calls
pHandleRead.Call unconditionally (src/pcan/pcanbasic.go line 215), so a
nil entry point is dereferenced, which panics. -/
def wrappedRead (s : APIState) (native : NativeRead) : GoCall ReadRet :=
  match s.pHandleRead with
  | none => .nilProcPanic
  | some _ => .returned (Read native)

/-- The method Write (src/pcan/pcanbasic.go lines 309-312) invoked
through the process-wide state. -/
def wrappedWrite (s : APIState) (resp : StubResp) :
    GoCall (TPCANStatus × Option Nat) :=
  match s.pHandleWrite with
  | none => .nilProcPanic
  | some _ => .returned (resp.status, resp.err)

/-- The method Uninitialize (src/pcan/pcanbasic.go lines 192-195)
invoked through the process-wide state. -/
def wrappedUninit (s : APIState) (resp : StubResp) :
    GoCall (TPCANStatus × Option Nat) :=
  match s.pHandleUninit with
  | none => .nilProcPanic
  | some _ => .returned (resp.status, resp.err)

/-- The method GetValue (src/pcan/pcanbasic.go lines 363-366) invoked
through the process-wide state. -/
def wrappedGetValue (s : APIState) (resp : StubResp) :
    GoCall (TPCANStatus × Option Nat) :=
  match s.pHandleGetValue with
  | none => .nilProcPanic
  | some _ => .returned (resp.status, resp.err)

/-- A queue holding a frame: an environment step whose read succeeds
with status PCAN_ERROR_OK, no platform error. -/
def frameStep (mt : TPCANMsg × TPCANTimestamp) : EnvStep :=
  ⟨⟨PCAN_ERROR_OK, mt.1, mt.2, none⟩, ⟨.object0, none⟩, 0⟩

/-- An empty queue: an environment step whose read reports
PCAN_ERROR_QRCVEMPTY with the given platform error; the message and
timestamp structs stay zeroed and are not returned. -/
def emptyStep (e : Option Nat) : EnvStep :=
  ⟨⟨PCAN_ERROR_QRCVEMPTY, ⟨0, 0, 0, []⟩, ⟨0, 0, 0⟩, e⟩, ⟨.object0, none⟩, 0⟩

/-- Sample message used by concrete witnesses. -/
def msg0 : TPCANMsg := ⟨291, 0, 8, [1, 2, 3, 4, 5, 6, 7, 8]⟩

/-- Sample timestamp used by concrete witnesses. -/
def ts0 : TPCANTimestamp := ⟨17, 0, 500⟩

/-- Sample successful native read used by concrete witnesses. -/
def frameRead0 : NativeRead := ⟨PCAN_ERROR_OK, msg0, ts0, none⟩

/-- Environment step delivering frameRead0. -/
def stepFrame0 : EnvStep := ⟨frameRead0, ⟨.object0, none⟩, 0⟩

/-- Environment step with an empty read observed past a deadline of 5
milliseconds after start 0. -/
def stepEmptyLate : EnvStep :=
  ⟨⟨PCAN_ERROR_QRCVEMPTY, ⟨0, 0, 0, []⟩, ⟨0, 0, 0⟩, none⟩, ⟨.object0, none⟩, 6⟩

/-- Environment step with an empty read observed once the clock has
passed startTime + 4294967295 milliseconds. -/
def stepEmptyHuge : EnvStep :=
  ⟨⟨PCAN_ERROR_QRCVEMPTY, ⟨0, 0, 0, []⟩, ⟨0, 0, 0⟩, none⟩, ⟨.object0, none⟩,
    4294967296⟩

/-- Environment step whose read reports a hard error status (a
hardware-fault style code distinct from OK and from queue-empty). -/
def stepHardErr : EnvStep :=
  ⟨⟨16384, ⟨7, 0, 0, []⟩, ⟨3, 0, 9⟩, none⟩, ⟨.object0, none⟩, 0⟩

/-- Five queued frames used by the drain-all witness. -/
def frames5 : List (TPCANMsg × TPCANTimestamp) :=
  [(⟨1, 0, 1, [1]⟩, ⟨1, 0, 0⟩), (⟨2, 0, 1, [2]⟩, ⟨2, 0, 0⟩),
   (⟨3, 0, 1, [3]⟩, ⟨3, 0, 0⟩), (⟨4, 0, 1, [4]⟩, ⟨4, 0, 0⟩),
   (⟨5, 0, 1, [5]⟩, ⟨5, 0, 0⟩)]

@[simp]
theorem Read_status (r : NativeRead) : (Read r).status = r.status := by
  unfold Read; split <;> rfl

@[simp]
theorem Read_err (r : NativeRead) : (Read r).err = r.err := by
  unfold Read; split <;> rfl

theorem Read_msg_some (r : NativeRead) (h : r.status ≠ PCAN_ERROR_QRCVEMPTY) :
    (Read r).msg = some r.msg := by
  unfold Read; rw [if_neg h]

theorem Read_ts_some (r : NativeRead) (h : r.status ≠ PCAN_ERROR_QRCVEMPTY) :
    (Read r).timestamp = some r.timestamp := by
  unfold Read; rw [if_neg h]

theorem Read_msg_none (r : NativeRead) (h : r.status = PCAN_ERROR_QRCVEMPTY) :
    (Read r).msg = none := by
  unfold Read; rw [if_pos h]

theorem Read_ts_none (r : NativeRead) (h : r.status = PCAN_ERROR_QRCVEMPTY) :
    (Read r).timestamp = none := by
  unfold Read; rw [if_pos h]

/-- An iteration whose read yields a frame (any status other than
queue-empty) ends the loop at once with that read's values. -/
theorem loop_head_frame (hE : Bool) (tU : Nat) (endT : Int) (step : EnvStep)
    (rest : List EnvStep) (h : step.read.status ≠ PCAN_ERROR_QRCVEMPTY) :
    readWithTimeoutLoop hE tU endT (step :: rest) =
      .done step.read.status (some step.read.msg) (some step.read.timestamp)
        step.read.err rest := by
  simp [readWithTimeoutLoop, h, Read_msg_some _ h, Read_ts_some _ h]

/-- On the polling path, a trace of clean queue-empty reads that reaches
a deadline check past endT ends with the empty outcome and nil error. -/
theorem loop_poll_empty (tU : Nat) (endT : Int) (env : List EnvStep)
    (hall : ∀ s ∈ env, s.read.status = PCAN_ERROR_QRCVEMPTY ∧ s.read.err = none)
    (hdl : ∃ s ∈ env, endT < s.now) :
    ∃ rem, readWithTimeoutLoop false tU endT env =
      .done PCAN_ERROR_QRCVEMPTY none none none rem := by
  induction env with
  | nil => simp at hdl
  | cons step rest ih =>
    have hs := hall step (by simp)
    by_cases hnow : endT < step.now
    · refine ⟨rest, ?_⟩
      simp [readWithTimeoutLoop, hs.1, hs.2, hnow]
    · have hmem : ∃ s ∈ rest, endT < s.now := by
        obtain ⟨s, hsm, hsn⟩ := hdl
        rcases List.mem_cons.mp hsm with h1 | h1
        · exact absurd (h1 ▸ hsn) hnow
        · exact ⟨s, h1, hsn⟩
      obtain ⟨rem, hrem⟩ := ih (fun x hx => hall x (List.mem_cons_of_mem _ hx)) hmem
      refine ⟨rem, ?_⟩
      simpa [readWithTimeoutLoop, hs.1, hnow] using hrem

/-- Every done result of the loop pairs the message and timestamp
pointers: both nil or both non-nil. -/
theorem loop_done_pair (hE : Bool) (tU : Nat) (endT : Int) :
    ∀ (env : List EnvStep) (ret : TPCANStatus) (m : Option TPCANMsg)
      (ts : Option TPCANTimestamp) (e : Option Nat) (rem : List EnvStep),
      readWithTimeoutLoop hE tU endT env = .done ret m ts e rem →
      (m = none ↔ ts = none) := by
  intro env
  induction env with
  | nil => intro ret m ts e rem h; simp [readWithTimeoutLoop] at h
  | cons step rest ih =>
    intro ret m ts e rem h
    by_cases hq : step.read.status = PCAN_ERROR_QRCVEMPTY
    · simp only [readWithTimeoutLoop, Read_status, hq, if_pos, if_true] at h
      split at h
      · split at h
        · exact ih _ _ _ _ _ h
        · cases h; simp
        · cases h; simp
        · rw [Read_msg_none _ hq, Read_ts_none _ hq] at h
          cases h; simp
      · split at h
        · cases h; simp
        · exact ih _ _ _ _ _ h
    · rw [loop_head_frame hE tU endT step rest hq] at h
      cases h; simp

/-- C1: with a non-negative timeout on an opened channel, if every read
reports a clean queue-empty until the deadline passes, ReadWithTimeout
returns the queue-empty status, a nil message, a nil timestamp and a
nil error. -/
theorem claim_C1_timeout_empty_outcome (t s0 : Int) (ht : 0 ≤ t)
    (env : List EnvStep)
    (hall : ∀ s ∈ env, s.read.status = PCAN_ERROR_QRCVEMPTY ∧ s.read.err = none)
    (hdl : ∃ s ∈ env, s0 + t < s.now) :
    ∃ rem, ReadWithTimeout false t s0 env =
      .done PCAN_ERROR_QRCVEMPTY none none none rem := by
  have hneg : ¬t < 0 := not_lt.mpr ht
  unfold ReadWithTimeout
  rw [if_neg hneg]
  exact loop_poll_empty _ _ env hall hdl

/-- Witness for C1 at timeout 5, start 0, one empty read at time 6. -/
theorem claim_C1_timeout_empty_outcome_w :
    ∃ rem, ReadWithTimeout false 5 0 [stepEmptyLate] =
      .done PCAN_ERROR_QRCVEMPTY none none none rem :=
  claim_C1_timeout_empty_outcome 5 0 (by decide) [stepEmptyLate]
    (by decide) (by decide)

/-- C2: as soon as one iteration's read returns a frame (status other
than queue-empty), the receive loop and ReadWithTimeout stop and return
that frame with its status and timestamp; the rest of the trace is left
unconsumed, so no further read or wait is performed even if more frames
remain queued. -/
theorem claim_C2_first_frame_stops (hE : Bool) (tU : Nat)
    (endT timeout s0 : Int) (step : EnvStep) (rest : List EnvStep)
    (h : step.read.status ≠ PCAN_ERROR_QRCVEMPTY) :
    readWithTimeoutLoop hE tU endT (step :: rest) =
      .done step.read.status (some step.read.msg) (some step.read.timestamp)
        step.read.err rest
    ∧ ReadWithTimeout hE timeout s0 (step :: rest) =
      .done step.read.status (some step.read.msg) (some step.read.timestamp)
        step.read.err rest := by
  constructor
  · exact loop_head_frame hE tU endT step rest h
  · unfold ReadWithTimeout
    exact loop_head_frame hE _ _ step rest h

/-- Witness for C2: a successful read on the first iteration (with a
second frame still queued behind it) is returned at once and the queued
step stays unconsumed. -/
theorem claim_C2_first_frame_stops_w :
    readWithTimeoutLoop false 0 5 [stepFrame0, stepHardErr] =
      .done stepFrame0.read.status (some stepFrame0.read.msg)
        (some stepFrame0.read.timestamp) stepFrame0.read.err [stepHardErr]
    ∧ ReadWithTimeout false 5 0 [stepFrame0, stepHardErr] =
      .done stepFrame0.read.status (some stepFrame0.read.msg)
        (some stepFrame0.read.timestamp) stepFrame0.read.err [stepHardErr] :=
  claim_C2_first_frame_stops false 0 5 5 0 stepFrame0 [stepHardErr] (by decide)

/-- C3 (code bug): with a negative timeout the Go code substitutes
syscall.INFINITE (4294967295) and, on the polling fallback path, uses
it as a finite millisecond deadline, so once time.Now passes
startTime + 4294967295 a queue-empty poll returns the empty outcome
(queue-empty status, nil message, nil timestamp, nil error), although
the claim and the function's own doc comment say a negative timeout
never ends the wait with the empty result. -/
theorem claim_C3_negative_timeout_can_return_empty :
    ReadWithTimeout false (-1) 0 [stepEmptyHuge] =
      .done PCAN_ERROR_QRCVEMPTY none none none [] := by decide

/-- C4: with timeout exactly 0 the loop still performs its first read
before any deadline check, so a frame already queued at call time is
returned rather than the empty outcome. -/
theorem claim_C4_zero_timeout_reads_once (hE : Bool) (s0 : Int)
    (step : EnvStep) (rest : List EnvStep)
    (h : step.read.status ≠ PCAN_ERROR_QRCVEMPTY) :
    ReadWithTimeout hE 0 s0 (step :: rest) =
      .done step.read.status (some step.read.msg) (some step.read.timestamp)
        step.read.err rest := by
  unfold ReadWithTimeout
  exact loop_head_frame hE _ _ step rest h

/-- Witness for C4 at timeout 0 with one queued frame. -/
theorem claim_C4_zero_timeout_reads_once_w :
    ReadWithTimeout false 0 0 [stepFrame0] =
      .done stepFrame0.read.status (some stepFrame0.read.msg)
        (some stepFrame0.read.timestamp) stepFrame0.read.err [] :=
  claim_C4_zero_timeout_reads_once false 0 stepFrame0 [] (by decide)

/-- C6: the message pointer is nil exactly when the timestamp pointer
is nil, both for a single Read and for every completed ReadWithTimeout:
a successful receive yields the (Frame, Timestamp) pair together. -/
theorem claim_C6_msg_iff_timestamp :
    (∀ r : NativeRead, ((Read r).msg = none ↔ (Read r).timestamp = none))
    ∧ ∀ (hE : Bool) (t s0 : Int) (env : List EnvStep) (ret : TPCANStatus)
        (m : Option TPCANMsg) (ts : Option TPCANTimestamp) (e : Option Nat)
        (rem : List EnvStep),
        ReadWithTimeout hE t s0 env = .done ret m ts e rem →
        (m = none ↔ ts = none) := by
  constructor
  · intro r
    unfold Read
    split <;> simp
  · intro hE t s0 env ret m ts e rem h
    exact loop_done_pair hE _ _ env ret m ts e rem h

/-- Witness for C6: the completed run on one queued frame returns both
pointers non-nil together. -/
theorem claim_C6_msg_iff_timestamp_w :
    (some msg0 = none ↔ some ts0 = none) :=
  claim_C6_msg_iff_timestamp.2 false 5 0 [stepFrame0] PCAN_ERROR_OK
    (some msg0) (some ts0) none [] (by decide)

/-- Draining with limit 0: the loop reads every queued frame in arrival
order and terminates on the queue-empty read, appending to the
accumulators. -/
theorem rfb_no_limit (frames : List (TPCANMsg × TPCANTimestamp)) :
    ∀ (msgs : List TPCANMsg) (tss : List TPCANTimestamp) (e : Option Nat)
      (rest : List EnvStep),
      readFullBufferLoop 0 msgs tss (frames.map frameStep ++ emptyStep e :: rest) =
        .done (msgs ++ frames.map Prod.fst) (tss ++ frames.map Prod.snd) e rest := by
  induction frames with
  | nil =>
    intro msgs tss e rest
    simp [readFullBufferLoop, emptyStep]
  | cons f fs ih =>
    intro msgs tss e rest
    have hne : (PCAN_ERROR_OK : Nat) ≠ PCAN_ERROR_QRCVEMPTY := by decide
    simp only [List.map_cons, List.cons_append, readFullBufferLoop,
      Read_status, Read_err]
    rw [if_neg (by simpa [frameStep] using hne)]
    rw [if_neg (by simp)]
    show readFullBufferLoop 0 (msgs ++ [(frameStep f).read.msg])
        (tss ++ [(frameStep f).read.timestamp])
        (fs.map frameStep ++ emptyStep e :: rest) = _
    rw [ih]
    simp [frameStep]

/-- Draining with a positive limit n: starting from accumulators
shorter than n, the loop returns all queued frames when they fit below
the limit, and otherwise stops after topping the accumulators up to
exactly n entries, leaving the undrained frame steps (and the
queue-empty step) unconsumed. -/
theorem rfb_limit (n : Nat) (frames : List (TPCANMsg × TPCANTimestamp)) :
    ∀ (msgs : List TPCANMsg) (tss : List TPCANTimestamp), msgs.length < n →
    ∀ (e : Option Nat) (rest : List EnvStep),
      readFullBufferLoop (n : Int) msgs tss
          (frames.map frameStep ++ emptyStep e :: rest) =
        if frames.length + msgs.length < n then
          .done (msgs ++ frames.map Prod.fst) (tss ++ frames.map Prod.snd) e rest
        else
          .done (msgs ++ (frames.take (n - msgs.length)).map Prod.fst)
            (tss ++ (frames.take (n - msgs.length)).map Prod.snd) none
            ((frames.drop (n - msgs.length)).map frameStep ++ emptyStep e :: rest) := by
  induction frames with
  | nil =>
    intro msgs tss hm e rest
    rw [if_pos (by simpa using hm)]
    simp [readFullBufferLoop, emptyStep]
  | cons f fs ih =>
    intro msgs tss hm e rest
    have hne : (PCAN_ERROR_OK : Nat) ≠ PCAN_ERROR_QRCVEMPTY := by decide
    simp only [List.map_cons, List.cons_append, readFullBufferLoop,
      Read_status, Read_err]
    rw [if_neg (by simpa [frameStep] using hne)]
    by_cases hstop : n ≤ msgs.length + 1
    · have hn1 : n = msgs.length + 1 := by omega
      rw [if_pos (by constructor <;> [omega; (simp [frameStep]; omega)])]
      rw [if_neg (by simp; omega)]
      have hsub : n - msgs.length = 1 := by omega
      rw [hsub]
      simp [frameStep, List.append_assoc]
    · rw [if_neg (by simp [frameStep]; omega)]
      show readFullBufferLoop (n : Int) (msgs ++ [(frameStep f).read.msg])
          (tss ++ [(frameStep f).read.timestamp])
          (fs.map frameStep ++ emptyStep e :: rest) = _
      rw [ih (msgs ++ [(frameStep f).read.msg])
        (tss ++ [(frameStep f).read.timestamp]) (by simp; omega) e rest]
      have hlen : (msgs ++ [(frameStep f).read.msg]).length = msgs.length + 1 := by
        simp
      rw [hlen]
      by_cases hfit : fs.length + (msgs.length + 1) < n
      · rw [if_pos hfit,
          if_pos (show (f :: fs).length + msgs.length < n by simp; omega)]
        simp [frameStep, List.append_assoc]
      · rw [if_neg hfit,
          if_neg (show ¬(f :: fs).length + msgs.length < n by simp; omega)]
        have hsub : n - msgs.length = (n - (msgs.length + 1)) + 1 := by omega
        rw [hsub]
        simp [frameStep, List.take_succ_cons, List.drop_succ_cons,
          List.append_assoc]

/-- C5: on a queue holding k frames, ReadFullBuffer with a positive
limit n returns exactly min(n, k) (Frame, Timestamp) pairs in arrival
order — all k of them and the queue-empty termination when k is below
n, otherwise the first n with the remaining frame steps left queued for
a subsequent call — and ReadFullBuffer with limit 0 returns all k pairs
in arrival order, terminating on the queue-empty outcome. -/
theorem claim_C5_drain_limit_and_unbounded
    (frames : List (TPCANMsg × TPCANTimestamp)) (n : Nat) (hn : 0 < n)
    (e : Option Nat) (rest : List EnvStep) :
    (ReadFullBuffer (n : Int) (frames.map frameStep ++ emptyStep e :: rest) =
      if frames.length < n then
        .done (frames.map Prod.fst) (frames.map Prod.snd) e rest
      else
        .done ((frames.take n).map Prod.fst) ((frames.take n).map Prod.snd) none
          ((frames.drop n).map frameStep ++ emptyStep e :: rest))
    ∧ ReadFullBuffer 0 (frames.map frameStep ++ emptyStep e :: rest) =
        .done (frames.map Prod.fst) (frames.map Prod.snd) e rest := by
  constructor
  · unfold ReadFullBuffer
    rw [rfb_limit n frames [] [] (by simpa using hn) e rest]
    simp
  · unfold ReadFullBuffer
    rw [rfb_no_limit frames [] [] e rest]
    simp

/-- Witness for C5, the scenario of the spec: limit 3 on a queue of 5
frames returns the first 3 in arrival order and leaves the last 2
queued; limit 0 returns all 5. -/
theorem claim_C5_drain_limit_and_unbounded_w :
    (ReadFullBuffer (3 : Int) (frames5.map frameStep ++ emptyStep none :: []) =
      if frames5.length < 3 then
        .done (frames5.map Prod.fst) (frames5.map Prod.snd) none []
      else
        .done ((frames5.take 3).map Prod.fst) ((frames5.take 3).map Prod.snd) none
          ((frames5.drop 3).map frameStep ++ emptyStep none :: []))
    ∧ ReadFullBuffer 0 (frames5.map frameStep ++ emptyStep none :: []) =
        .done (frames5.map Prod.fst) (frames5.map Prod.snd) none [] :=
  claim_C5_drain_limit_and_unbounded frames5 3 (by decide) none []

/-- C9: when a read inside ReadFullBuffer returns any status other than
queue-empty — a hard error status included — the loop appends the
returned message and timestamp and keeps reading, stopping only when
the count limit is reached; the status code itself is dropped (the
result type carries only the lists, the last error and the remaining
trace, no status). -/
theorem claim_C9_hard_error_keeps_reading (limit : Int)
    (msgs : List TPCANMsg) (tss : List TPCANTimestamp) (step : EnvStep)
    (rest : List EnvStep) (h : step.read.status ≠ PCAN_ERROR_QRCVEMPTY) :
    readFullBufferLoop limit msgs tss (step :: rest) =
      if limit ≠ 0 ∧ limit ≤ ((msgs ++ [step.read.msg]).length : Int) then
        .done (msgs ++ [step.read.msg]) (tss ++ [step.read.timestamp])
          step.read.err rest
      else
        readFullBufferLoop limit (msgs ++ [step.read.msg])
          (tss ++ [step.read.timestamp]) rest := by
  simp only [readFullBufferLoop, Read_status, Read_err]
  rw [if_neg h]

/-- Witness for C9: a hardware-fault read (status 16384) inside an
unbounded drain is appended and the loop continues into the rest of the
trace. -/
theorem claim_C9_hard_error_keeps_reading_w :
    readFullBufferLoop 0 [] [] [stepHardErr] =
      if (0 : Int) ≠ 0 ∧ (0 : Int) ≤ ((([] : List TPCANMsg) ++ [stepHardErr.read.msg]).length : Int) then
        .done ([] ++ [stepHardErr.read.msg]) ([] ++ [stepHardErr.read.timestamp])
          stepHardErr.read.err []
      else
        readFullBufferLoop 0 ([] ++ [stepHardErr.read.msg])
          ([] ++ [stepHardErr.read.timestamp]) [] :=
  claim_C9_hard_error_keeps_reading 0 [] [] stepHardErr [] (by decide)

/-- C10: a negative limit is not unbounded: as soon as the first read
yields a frame the accumulated length (1) already reaches the negative
limit, so ReadFullBuffer returns exactly that one pair. -/
theorem claim_C10_negative_limit_one_pair (limit : Int) (hneg : limit < 0)
    (step : EnvStep) (rest : List EnvStep)
    (h : step.read.status ≠ PCAN_ERROR_QRCVEMPTY) :
    ReadFullBuffer limit (step :: rest) =
      .done [step.read.msg] [step.read.timestamp] step.read.err rest := by
  unfold ReadFullBuffer
  simp only [readFullBufferLoop, Read_status, Read_err]
  have hc : limit ≠ 0 ∧
      limit ≤ ((([] : List TPCANMsg) ++ [step.read.msg]).length : Int) :=
    ⟨by omega, by simp; omega⟩
  rw [if_neg h, if_pos hc]
  simp

/-- Witness for C10 at limit -1 with one queued frame. -/
theorem claim_C10_negative_limit_one_pair_w :
    ReadFullBuffer (-1) [stepFrame0] =
      .done [stepFrame0.read.msg] [stepFrame0.read.timestamp]
        stepFrame0.read.err [] :=
  claim_C10_negative_limit_one_pair (-1) (by decide) stepFrame0 [] (by decide)

/-- C7 counterexample: with path limit 256, trace-size limit 100, a
257-byte path and maxFileSize 0 against an all-OK driver stub,
StartTrace does reject the path locally (PCAN_ERROR_UNKNOWN with the
local path-length error), but the PCAN_TRACE_CONFIGURE native call has
already been made before the path check, so the list of native calls
made during the invocation is not empty. -/
theorem claim_C7_cex_native_call_before_path_check :
    StartTrace 256 100 257 0 [⟨PCAN_ERROR_OK, none⟩, ⟨PCAN_ERROR_OK, none⟩] =
      .done PCAN_ERROR_UNKNOWN (some .pathTooLong) [.TRACE_CONFIGURE]
    ∧ ([TraceParam.TRACE_CONFIGURE] ≠ ([] : List TraceParam)) := by decide

/-- C7 (amended): an oversized path is rejected locally with the
path-length validation error and the path itself never reaches the
native layer — neither the PCAN_TRACE_LOCATION call nor the
PCAN_TRACE_STATUS call is made — but the preceding trace-configuration
native call (and the trace-size call when maxFileSize is positive) has
already been forwarded to the driver when the rejection happens. -/
theorem claim_C7_oversized_path_rejected_locally
    (maxLen maxTrace pathLen maxFileSize : Nat) (s : List StubResp)
    (r1 r2 : StubResp) (hpath : pathLen > maxLen)
    (hsize : maxFileSize ≤ maxTrace)
    (h1 : r1 = ⟨PCAN_ERROR_OK, none⟩) (h2 : r2 = ⟨PCAN_ERROR_OK, none⟩) :
    StartTrace maxLen maxTrace pathLen maxFileSize (r1 :: r2 :: s) =
      .done PCAN_ERROR_UNKNOWN (some TraceErr.pathTooLong)
        (if maxFileSize > 0 then
          [TraceParam.TRACE_CONFIGURE, TraceParam.TRACE_SIZE]
        else [TraceParam.TRACE_CONFIGURE])
    ∧ TraceParam.TRACE_LOCATION ∉
        (if maxFileSize > 0 then
          [TraceParam.TRACE_CONFIGURE, TraceParam.TRACE_SIZE]
        else [TraceParam.TRACE_CONFIGURE]) := by
  subst h1 h2
  have hg1 : ¬maxFileSize > maxTrace := by omega
  by_cases hmf : maxFileSize > 0
  · constructor
    · simp [StartTrace, startTraceAfterSize, hg1, hmf, hpath]
    · rw [if_pos hmf]; decide
  · constructor
    · simp [StartTrace, startTraceAfterSize, hg1, hmf, hpath]
    · rw [if_neg hmf]; decide

/-- Witness for the amended C7: path of length 300 against limit 256,
file size 50 under the limit 100, all-OK stub. -/
theorem claim_C7_oversized_path_rejected_locally_w :
    (StartTrace 256 100 300 50 [⟨PCAN_ERROR_OK, none⟩, ⟨PCAN_ERROR_OK, none⟩] =
      .done PCAN_ERROR_UNKNOWN (some TraceErr.pathTooLong)
        (if 50 > 0 then
          [TraceParam.TRACE_CONFIGURE, TraceParam.TRACE_SIZE]
        else [TraceParam.TRACE_CONFIGURE])
    ∧ TraceParam.TRACE_LOCATION ∉
        (if 50 > 0 then
          [TraceParam.TRACE_CONFIGURE, TraceParam.TRACE_SIZE]
        else [TraceParam.TRACE_CONFIGURE])) :=
  claim_C7_oversized_path_rejected_locally 256 100 300 50 []
    ⟨PCAN_ERROR_OK, none⟩ ⟨PCAN_ERROR_OK, none⟩ (by decide) (by decide)
    rfl rfl

/-- C8 (code bug): after UnloadAPI every entry-point reference is nil,
and each wrapped operation (Read, Write, Uninitialize, GetValue) calls
Call on that nil pointer unconditionally, so it ends in a runtime
nil-pointer dereference — a panic — rather than failing fast with a
returned platform/linkage error as the claim requires. -/
theorem claim_C8_calls_after_unload_dereference_nil (s : APIState)
    (n : NativeRead) (r1 r2 r3 : StubResp) :
    wrappedRead (UnloadAPI s) n = .nilProcPanic
    ∧ wrappedWrite (UnloadAPI s) r1 = .nilProcPanic
    ∧ wrappedUninit (UnloadAPI s) r2 = .nilProcPanic
    ∧ wrappedGetValue (UnloadAPI s) r3 = .nilProcPanic :=
  ⟨rfl, rfl, rfl, rfl⟩

end Gopcan
